import Mathlib

/-!
Verification development for the TinyMQ client (src/tinymq and the view
layers src/gui.py, src/cli.py).  Python code is shallowly embedded: bytes
are lists of naturals below 256, stateful code is explicit state passing,
and fallible code returns `Option`/`Except`.  Each definition names the
source function it embeds.
-/

/-! ## Frame codec (src/tinymq/packet.py) -/

/-- Embedding of `PacketType` (src/tinymq/packet.py, lines 11-56): the closed
enumeration of defined packet types. -/
inductive PacketType where
  | CONN | CONNACK
  | PUB | PUBACK | SUB | SUBACK | UNSUB | UNSUBACK
  | TOPIC_REQ | TOPIC_RESP
  | ADMIN_REQ | ADMIN_REQ_ACK | ADMIN_NOTIFY | ADMIN_RESPONSE | ADMIN_RESULT
  | ADMIN_LIST_REQ | ADMIN_LIST_RESP | ADMIN_RESP | MY_ADMIN_REQ | MY_ADMIN_RESP
  | MY_TOPICS_REQ | MY_TOPICS_RESP
  | MY_ADMIN_TOPICS_REQ | MY_ADMIN_TOPICS_RESP | ADMIN_RESIGN | ADMIN_RESIGN_ACK
  | TOPIC_SENSORS_REQ | TOPIC_SENSORS_RESP
  | SENSOR_STATUS_RESP
  deriving DecidableEq, Repr

/-- Numeric value of each packet type, as fixed in `PacketType` of
src/tinymq/packet.py. -/
def PacketType.toNat : PacketType → Nat
  | .CONN => 0x01 | .CONNACK => 0x02
  | .PUB => 0x03 | .PUBACK => 0x04 | .SUB => 0x05 | .SUBACK => 0x06
  | .UNSUB => 0x07 | .UNSUBACK => 0x08
  | .TOPIC_REQ => 0x09 | .TOPIC_RESP => 0x0A
  | .ADMIN_REQ => 0x0B | .ADMIN_REQ_ACK => 0x0C | .ADMIN_NOTIFY => 0x0D
  | .ADMIN_RESPONSE => 0x0E | .ADMIN_RESULT => 0x0F
  | .ADMIN_LIST_REQ => 0x10 | .ADMIN_LIST_RESP => 0x11 | .ADMIN_RESP => 0x12
  | .MY_ADMIN_REQ => 0x13 | .MY_ADMIN_RESP => 0x14
  | .MY_TOPICS_REQ => 0x20 | .MY_TOPICS_RESP => 0x21
  | .MY_ADMIN_TOPICS_REQ => 0x22 | .MY_ADMIN_TOPICS_RESP => 0x23
  | .ADMIN_RESIGN => 0x24 | .ADMIN_RESIGN_ACK => 0x25
  | .TOPIC_SENSORS_REQ => 0x26 | .TOPIC_SENSORS_RESP => 0x27
  | .SENSOR_STATUS_RESP => 0x35

/-- Embedding of the `PacketType(value)` constructor call in
`Packet.deserialize` (src/tinymq/packet.py, line 101): yields the packet type
with the given value, or `none` where Python raises `ValueError`. -/
def PacketType.fromNat? : Nat → Option PacketType
  | 0x01 => some .CONN | 0x02 => some .CONNACK
  | 0x03 => some .PUB | 0x04 => some .PUBACK | 0x05 => some .SUB
  | 0x06 => some .SUBACK | 0x07 => some .UNSUB | 0x08 => some .UNSUBACK
  | 0x09 => some .TOPIC_REQ | 0x0A => some .TOPIC_RESP
  | 0x0B => some .ADMIN_REQ | 0x0C => some .ADMIN_REQ_ACK
  | 0x0D => some .ADMIN_NOTIFY | 0x0E => some .ADMIN_RESPONSE
  | 0x0F => some .ADMIN_RESULT
  | 0x10 => some .ADMIN_LIST_REQ | 0x11 => some .ADMIN_LIST_RESP
  | 0x12 => some .ADMIN_RESP | 0x13 => some .MY_ADMIN_REQ
  | 0x14 => some .MY_ADMIN_RESP
  | 0x20 => some .MY_TOPICS_REQ | 0x21 => some .MY_TOPICS_RESP
  | 0x22 => some .MY_ADMIN_TOPICS_REQ | 0x23 => some .MY_ADMIN_TOPICS_RESP
  | 0x24 => some .ADMIN_RESIGN | 0x25 => some .ADMIN_RESIGN_ACK
  | 0x26 => some .TOPIC_SENSORS_REQ | 0x27 => some .TOPIC_SENSORS_RESP
  | 0x35 => some .SENSOR_STATUS_RESP
  | _ => none

/-- Embedding of the `Packet` class (src/tinymq/packet.py, lines 58-69):
a packet type, a flags byte and a payload byte string.  Bytes are naturals
below 256. -/
structure Packet where
  packet_type : PacketType
  flags : Nat
  payload : List Nat
  deriving DecidableEq, Repr

/-- Embedding of `Packet.serialize` (src/tinymq/packet.py, lines 71-79):
`struct.pack('!BBH', type, flags, len(payload))` followed by the payload.
`struct.pack` raises `struct.error` when `flags` does not fit in one byte or
the payload length does not fit in an unsigned big-endian 16-bit field, so
the embedding returns `none` exactly there. -/
def Packet.serialize (p : Packet) : Option (List Nat) :=
  if p.flags < 256 ∧ p.payload.length < 65536 then
    some ([p.packet_type.toNat, p.flags,
           p.payload.length / 256, p.payload.length % 256] ++ p.payload)
  else none

/-- Embedding of `Packet.deserialize` (src/tinymq/packet.py, lines 81-105).
Returns the parsed packet (or `none`) and the consumed byte count: `(none, 0)`
when fewer than 4 header bytes or fewer than `4 + payload_length` bytes are
present, `(none, 4 + payload_length)` when the type byte is not a defined
`PacketType` (the `ValueError` branch), and the packet with
`4 + payload_length` otherwise. -/
def Packet.deserialize (data : List Nat) : Option Packet × Nat :=
  match data with
  | b0 :: b1 :: b2 :: b3 :: rest =>
    let payload_length := 256 * b2 + b3
    if rest.length < payload_length then (none, 0)
    else
      match PacketType.fromNat? b0 with
      | some t => (some ⟨t, b1, rest.take payload_length⟩, 4 + payload_length)
      | none => (none, 4 + payload_length)
  | _ => (none, 0)

/-! ## Connection reader (src/tinymq/client.py, `Client._read_loop`) -/

/-- Embedding of the frame-processing loop inside `Client._read_loop`
(src/tinymq/client.py, lines 263-271): starting from `consumed = 0`, it
repeatedly calls `Packet.deserialize(buffer[consumed:])`; when the packet is
`None` it breaks (without advancing `consumed`), otherwise it handles the
packet and advances by the consumed byte count.  The fuel argument bounds the
iteration count; each productive step consumes at least 4 bytes, so
`buffer.length + 1` fuel is always enough.  Returns the list of packets
handed to `_handle_packet` and the final value of `consumed`. -/
def Client.processFrames : Nat → List Nat → List Packet × Nat
  | 0, _ => ([], 0)
  | fuel + 1, buffer =>
    if buffer.length = 0 then ([], 0)
    else
      match Packet.deserialize buffer with
      | (none, _) => ([], 0)
      | (some p, n) =>
        match Client.processFrames fuel (buffer.drop n) with
        | (ps, c) => (p :: ps, n + c)

/-- One pass of the `Client._read_loop` body over the receive buffer: the
packets dispatched and the prefix length dropped from `self._recv_buffer`
afterwards (src/tinymq/client.py, lines 263-275). -/
def Client.readLoopProcess (buffer : List Nat) : List Packet × Nat :=
  Client.processFrames (buffer.length + 1) buffer

/-! ## Python values delivered by `json.loads` -/

/-- Python values as produced by the standard-library call `json.loads`:
dicts (key order preserved, keys unique), lists, strings, numbers, booleans
and `None`.  Numbers are modelled as integers; no claim touches float
payloads.  `json` is the Python standard library, external to this
repository, so code that calls `json.loads(message)` is embedded as a
function of the parse result (`none` when `json.loads` raises
`JSONDecodeError`). -/
inductive PyJson where
  | obj : List (String × PyJson) → PyJson
  | arr : List PyJson → PyJson
  | str : String → PyJson
  | num : Int → PyJson
  | boolean : Bool → PyJson
  | null

/-- Lowercase hexadecimal digit. -/
def hexDigit (n : Nat) : Char :=
  if n < 10 then Char.ofNat (48 + n) else Char.ofNat (87 + n)

/-- Two lowercase hexadecimal digits. -/
def hex2 (n : Nat) : String :=
  String.mk [hexDigit (n / 16 % 16), hexDigit (n % 16)]

/-- Four lowercase hexadecimal digits. -/
def hex4 (n : Nat) : String :=
  String.mk [hexDigit (n / 4096 % 16), hexDigit (n / 256 % 16),
             hexDigit (n / 16 % 16), hexDigit (n % 16)]

/-- Does `hay` start with `needle`? -/
def startsWithChars : List Char → List Char → Bool
  | [], _ => true
  | _ :: _, [] => false
  | a :: as, b :: bs => a == b && startsWithChars as bs

/-- Does `hay` contain `needle` as a contiguous substring?  Models Python's
`needle in hay` on strings. -/
def containsChars (needle : List Char) : List Char → Bool
  | [] => needle.isEmpty
  | b :: bs => startsWithChars needle (b :: bs) || containsChars needle bs

/-- Python `repr` of one character of an ASCII string, given the chosen
quote character `q` (faithful to CPython for ASCII text; only used inside
Python's `str()` of containers, which no claim evaluates on non-ASCII
data). -/
def pyReprEscapeChar (q : Char) (c : Char) : String :=
  if c = '\\' then "\\\\"
  else if c = q then "\\" ++ String.singleton q
  else if c.toNat = 10 then "\\n"
  else if c.toNat = 13 then "\\r"
  else if c.toNat = 9 then "\\t"
  else if c.toNat < 32 || c.toNat = 127 then "\\x" ++ hex2 c.toNat
  else String.singleton c

/-- Python `repr` of a string: single-quoted, except double-quoted when the
string contains a single quote but no double quote. -/
def pyReprOfString (s : String) : String :=
  let q : Char := if s.contains '\'' && !(s.contains '"') then '"' else '\''
  String.singleton q ++ String.join (s.data.map (pyReprEscapeChar q)) ++
    String.singleton q

mutual

/-- Python `repr` of a `json.loads` value (used by `str()` on containers). -/
def pyRepr : PyJson → String
  | .str s => pyReprOfString s
  | .num n => toString n
  | .boolean b => if b then "True" else "False"
  | .null => "None"
  | .arr xs => "[" ++ pyReprSeq xs ++ "]"
  | .obj kvs => "\x7b" ++ pyReprPairs kvs ++ "\x7d"

/-- Comma-separated `repr` of list elements. -/
def pyReprSeq : List PyJson → String
  | [] => ""
  | [x] => pyRepr x
  | x :: y :: xs => pyRepr x ++ ", " ++ pyReprSeq (y :: xs)

/-- Comma-separated `repr` of dict items. -/
def pyReprPairs : List (String × PyJson) → String
  | [] => ""
  | [(k, v)] => pyReprOfString k ++ ": " ++ pyRepr v
  | (k, v) :: kv :: kvs =>
    pyReprOfString k ++ ": " ++ pyRepr v ++ ", " ++ pyReprPairs (kv :: kvs)

end

/-- Python `str()` conversion as applied by an f-string: identity on
strings, `repr` on containers, and the usual renderings of numbers,
booleans and `None`. -/
def pyStr : PyJson → String
  | .str s => s
  | .num n => toString n
  | .boolean b => if b then "True" else "False"
  | .null => "None"
  | .arr xs => pyRepr (.arr xs)
  | .obj kvs => pyRepr (.obj kvs)

/-- Python `"cliente" in message_dict`: key membership on dicts, element
equality on lists, substring on strings; raises `TypeError` (the `error`
case) on numbers, booleans and `None`. -/
def PyJson.containsCliente : PyJson → Except Unit Bool
  | .obj kvs => .ok (kvs.any (fun kv => kv.1 == "cliente"))
  | .arr xs => .ok (xs.any (fun x => match x with
      | .str s => s == "cliente"
      | _ => false))
  | .str s => .ok (containsChars "cliente".data s.data)
  | _ => .error ()

/-- Python `message_dict['cliente']`: value lookup on dicts (`KeyError`
when absent), `TypeError` on every other value. -/
def PyJson.getItemCliente : PyJson → Except Unit PyJson
  | .obj kvs =>
    match kvs.find? (fun kv => kv.1 == "cliente") with
    | some kv => .ok kv.2
    | none => .error ()
  | _ => .error ()

/-! ## UTF-8 and `json.dumps` -/

/-- UTF-8 encoding of one code point (Python `str.encode('utf-8')`). -/
def utf8EncodeChar (c : Char) : List Nat :=
  let n := c.toNat
  if n < 0x80 then [n]
  else if n < 0x800 then [0xC0 + n / 64, 0x80 + n % 64]
  else if n < 0x10000 then
    [0xE0 + n / 4096, 0x80 + n / 64 % 64, 0x80 + n % 64]
  else
    [0xF0 + n / 262144, 0x80 + n / 4096 % 64, 0x80 + n / 64 % 64,
     0x80 + n % 64]

/-- UTF-8 encoding of a string as a byte list (Python
`s.encode('utf-8')`). -/
def utf8Encode (s : String) : List Nat :=
  (s.data.map utf8EncodeChar).flatten

/-- Escape of one character inside a `json.dumps` string literal with the
default `ensure_ascii=True`: printable ASCII other than quote and backslash
is literal, the usual short escapes apply, and everything else becomes
`\uXXXX` (a surrogate pair above the BMP). -/
def jsonEscapeChar (c : Char) : String :=
  if c = '"' then "\\\""
  else if c = '\\' then "\\\\"
  else if c.toNat = 8 then "\\b"
  else if c.toNat = 9 then "\\t"
  else if c.toNat = 10 then "\\n"
  else if c.toNat = 12 then "\\f"
  else if c.toNat = 13 then "\\r"
  else if 0x20 ≤ c.toNat && c.toNat ≤ 0x7e then String.singleton c
  else if c.toNat < 0x10000 then "\\u" ++ hex4 c.toNat
  else
    "\\u" ++ hex4 (0xd800 + (c.toNat - 0x10000) / 1024) ++
    "\\u" ++ hex4 (0xdc00 + (c.toNat - 0x10000) % 1024)

/-- Python `json.dumps` of a string. -/
def jsonDumpsString (s : String) : String :=
  "\"" ++ String.join (s.data.map jsonEscapeChar) ++ "\""

/-- Python `json.dumps([s])`: the JSON-encoded single-element array of a
string, as built in `Client.publish` (src/tinymq/client.py, line 159). -/
def jsonDumpsSingletonArray (s : String) : String :=
  "[" ++ jsonDumpsString s ++ "]"

/-! ## Publish (src/tinymq/client.py, `Client.publish`) -/

/-- Outcome of `Client.publish` (src/tinymq/client.py, lines 140-179).
`notConnected` is the early `return False`; `raised` is the `except` branch
reached when `json.loads(message)` or the later dict operations raise
(returns `False`); `topicTooLong` is the synchronous length failure
(returns `False`); `sent pkt` means the PUB packet `pkt` was handed to
`_send_packet`, whose transport result the call returns. -/
inductive PublishResult where
  | notConnected
  | raised
  | topicTooLong
  | sent (pkt : Packet)
  deriving DecidableEq, Repr

/-- Tail of `Client.publish` after the effective (broker) topic string has
been computed (src/tinymq/client.py, lines 159-176): wrap it as a JSON
singleton array, encode, enforce the 255-byte bound on the encoded wrapped
topic, then build `bytes([topic_length]) + broker_topic_bytes +
message_bytes` and send it as a `PUB` packet with flags 0. -/
def Client.publishFrom (broker_topic : String) (message : String) :
    PublishResult :=
  let broker_topic_bytes := utf8Encode (jsonDumpsSingletonArray broker_topic)
  let topic_length := broker_topic_bytes.length
  if 255 < topic_length then .topicTooLong
  else
    .sent ⟨PacketType.PUB, 0,
           topic_length :: (broker_topic_bytes ++ utf8Encode message)⟩

/-- Embedding of `Client.publish` (src/tinymq/client.py, lines 140-179).
`loads` is the result of the external call `json.loads(message)` (`none`
when it raises).  The broker topic is `"<cliente>/<topic>"` when
`"cliente" in message_dict` holds, else `"<client_id>/<topic>"`; a
`TypeError`/`KeyError` from the membership test or the subscript lands in
the same `except` handler as a parse failure and returns `False`. -/
def Client.publish (connected : Bool) (client_id topic message : String)
    (loads : Option PyJson) : PublishResult :=
  if connected = false then .notConnected
  else
    match loads with
    | none => .raised
    | some message_dict =>
      match message_dict.containsCliente with
      | .error _ => .raised
      | .ok b =>
        if b then
          match message_dict.getItemCliente with
          | .error _ => .raised
          | .ok v => Client.publishFrom (pyStr v ++ "/" ++ topic) message
        else Client.publishFrom (client_id ++ "/" ++ topic) message

/-- The packet handed to `_send_packet` by a publish call, when there is
one. -/
def PublishResult.sentPacket? : PublishResult → Option Packet
  | .sent pkt => some pkt
  | _ => none

/-! ## Admin request (src/tinymq/client.py, `Client.request_admin_status`) -/

/-- The string `json.dumps` produces for the admin-request envelope built in
`Client.request_admin_status` (src/tinymq/client.py, lines 828-834): a dict
with keys `__admin_request`, `client_id`, `topic_name`, `owner_id` and
`timestamp`, in that insertion order, serialized with the default
separators and `ensure_ascii=True`. -/
def adminRequestMessage (client_id topic_name owner_id : String)
    (timestamp : Nat) : String :=
  "\x7b\"__admin_request\": true, \"client_id\": " ++
    jsonDumpsString client_id ++
  ", \"topic_name\": " ++ jsonDumpsString topic_name ++
  ", \"owner_id\": " ++ jsonDumpsString owner_id ++
  ", \"timestamp\": " ++ toString timestamp ++ "\x7d"

/-- The value `json.loads` returns for `adminRequestMessage` (round trip of
the dict built at src/tinymq/client.py, lines 828-834). -/
def adminRequestParsed (client_id topic_name owner_id : String)
    (timestamp : Nat) : PyJson :=
  .obj [("__admin_request", .boolean true),
        ("client_id", .str client_id),
        ("topic_name", .str topic_name),
        ("owner_id", .str owner_id),
        ("timestamp", .num timestamp)]

/-- Outcome of `Client.request_admin_status` (src/tinymq/client.py,
lines 805-847): either the early not-connected failure (callback fired with
`NOT_CONNECTED`, returns `False`), or the result of publishing the envelope
on `"<owner_id>/admin"`, which the call returns unchanged. -/
inductive AdminRequestOutcome where
  | notConnected
  | published (r : PublishResult)
  deriving DecidableEq, Repr

/-- Embedding of `Client.request_admin_status` (src/tinymq/client.py,
lines 805-847).  The body performs no comparison of `owner_id` with the
client's own id: when connected it always publishes the JSON envelope on
the topic `"<owner_id>/admin"` and returns the publish result. -/
def Client.request_admin_status (connected : Bool)
    (client_id topic_name owner_id : String) (timestamp : Nat) :
    AdminRequestOutcome :=
  if connected = false then .notConnected
  else
    let request_message :=
      adminRequestMessage client_id topic_name owner_id timestamp
    let admin_topic := owner_id ++ "/admin"
    .published (Client.publish true client_id admin_topic request_message
      (some (adminRequestParsed client_id topic_name owner_id timestamp)))

/-- The admin-request envelope packet handed to `_send_packet`, when there
is one. -/
def AdminRequestOutcome.sentPacket? : AdminRequestOutcome → Option Packet
  | .published r => r.sentPacket?
  | .notConnected => none

/-! ## Disconnect and the correlation waiters (src/tinymq/client.py) -/

/-- The `Client` state touched by `Client.disconnect` and by the
correlation machinery: the `running`/`connected` flags, whether the socket
object is live, the keys of `self._temp_handlers` (the one-shot correlation
handlers), and whether the `threading.Event` a `get_my_admin_topics` caller
waits on (`response_received`, src/tinymq/client.py, line 517) has been
set.  That event is set only inside the temporary handler that runs when a
`MY_ADMIN_TOPICS_RESP` packet arrives (line 542). -/
structure ClientState where
  running : Bool
  connected : Bool
  socketLive : Bool
  tempHandlerKeys : List PacketType
  adminTopicsEventSet : Bool
  deriving DecidableEq, Repr

/-- Embedding of `Client.disconnect` (src/tinymq/client.py, lines 118-138):
clears `running`, joins the reader thread, closes and drops the socket, and
clears `connected` (notifying the connection-state callback).  It does not
touch `self._temp_handlers` and does not set any waiter's event. -/
def Client.disconnect (s : ClientState) : ClientState :=
  { s with running := false, socketLive := false, connected := false }

/-! ## Local store (src/tinymq/db.py) -/

/-- A row of the `subscriptions` table created by `Database._ensure_tables`
(src/tinymq/db.py, lines 81-89): an autoincrement integer primary key
`id`, `topic`, `source_client_id` and an `active` flag.  The table declares
no uniqueness constraint on `(topic, source_client_id)`. -/
structure SubRow where
  id : Nat
  topic : String
  source_client_id : String
  active : Bool
  deriving DecidableEq, Repr

/-- The `subscriptions` table together with the next autoincrement id
(SQLite autoincrement ids start at 1). -/
structure SubsTable where
  rows : List SubRow
  nextId : Nat
  deriving DecidableEq, Repr

/-- The empty `subscriptions` table right after `Database._ensure_tables`. -/
def Database.emptySubs : SubsTable := ⟨[], 1⟩

/-- Embedding of `Database.add_subscription` (src/tinymq/db.py,
lines 528-545): `INSERT OR REPLACE INTO subscriptions (topic,
source_client_id, active) VALUES (?, ?, 1)`.  SQLite's `OR REPLACE` clause
only fires on a uniqueness-constraint conflict; the table's sole constraint
is the autoincrement primary key, which a VALUES list without an `id` can
never conflict with, so every call inserts a fresh active row. -/
def Database.add_subscription (db : SubsTable) (topic source_client_id :
    String) : SubsTable :=
  { rows := db.rows ++ [⟨db.nextId, topic, source_client_id, true⟩],
    nextId := db.nextId + 1 }

/-- Embedding of `Database.get_subscriptions` (src/tinymq/db.py,
lines 599-612): `SELECT id, topic, source_client_id FROM subscriptions
WHERE active = 1`. -/
def Database.get_subscriptions (db : SubsTable) : List SubRow :=
  db.rows.filter (fun r => r.active)

/-- A row of the `topics` table created by `Database._ensure_tables`
(src/tinymq/db.py, lines 62-68): autoincrement `id`, a `name` column with a
UNIQUE constraint, and a `publish` flag. -/
structure TopicRow where
  id : Nat
  name : String
  publish : Bool
  deriving DecidableEq, Repr

/-- The `topics` table together with the next autoincrement id. -/
structure TopicsTable where
  rows : List TopicRow
  nextId : Nat
  deriving DecidableEq, Repr

/-- The empty `topics` table right after `Database._ensure_tables`. -/
def Database.emptyTopics : TopicsTable := ⟨[], 1⟩

/-- Embedding of `Database.get_topic` (src/tinymq/db.py, lines 334-363).
The body first calls the Python builtin `int(topic_id_or_name)` inside a
`try`: when that succeeds the lookup is `SELECT id, name, publish FROM
topics WHERE id = ?` by the parsed id, and only when it raises
`ValueError` does the lookup fall back to `... WHERE name = ?`.  `int` is
a Python builtin, external to this repository, so — exactly as with
`json.loads` above — the embedding takes the outcome of
`int(topic_id_or_name)` as the argument `intResult` (`none` when `int`
raises `ValueError`, `some n` when it returns `n`, e.g.
`int("1") = 1`).  Either branch returns the first matching row
(`fetchone`), if any. -/
def Database.get_topic (rows : List TopicRow) (topic_id_or_name : String)
    (intResult : Option Int) : Option TopicRow :=
  match intResult with
  | some topic_id => rows.find? (fun r => ((r.id : Int)) == topic_id)
  | none => rows.find? (fun r => r.name == topic_id_or_name)

/-- Embedding of `Database.create_topic` (src/tinymq/db.py, lines 365-394):
`INSERT OR IGNORE INTO topics (name, publish) VALUES (?, ?)` — ignored when
a row with the UNIQUE `name` already exists — then, if `rowcount == 0`,
`UPDATE topics SET publish = ? WHERE name = ?`, and finally `SELECT id FROM
topics WHERE name = ?` to return the topic id. -/
def Database.create_topic (db : TopicsTable) (name : String)
    (publish : Bool) : TopicsTable × Nat :=
  match db.rows.find? (fun r => r.name == name) with
  | some r =>
    ({ rows := db.rows.map
         (fun q => if q.name == name then { q with publish := publish }
                   else q),
       nextId := db.nextId }, r.id)
  | none =>
    ({ rows := db.rows ++ [⟨db.nextId, name, publish⟩],
       nextId := db.nextId + 1 }, db.nextId)

/-- Embedding of `Database.set_topic_publish` (src/tinymq/db.py,
lines 396-410): `UPDATE topics SET publish = ? WHERE name = ?`, touching
every row whose name matches. -/
def Database.set_topic_publish (rows : List TopicRow) (name : String)
    (publish : Bool) : List TopicRow :=
  rows.map (fun r => if r.name == name then { r with publish := publish }
                     else r)

/-! ## DAS callback registry (src/tinymq/das.py) -/

/-- Embedding of `DataAcquisitionService.add_data_callback`
(src/tinymq/das.py, lines 397-414): appends the callback to
`self.on_data_received_callbacks` only when `callback not in` the list.
Callbacks are modelled as values of an arbitrary type with decidable
equality (Python compares function objects by identity). -/
def DataAcquisitionService.add_data_callback {α : Type} [DecidableEq α]
    (callbacks : List α) (callback : α) : List α :=
  if callback ∈ callbacks then callbacks else callbacks ++ [callback]

/-- The callback-invocation sequence one sensor reading produces inside
`DataAcquisitionService._store_sensor_reading` (src/tinymq/das.py,
lines 384-393): `for callback in self.on_data_received_callbacks:
callback(...)` invokes each registered callback once, in list order. -/
def DataAcquisitionService.invocations {α : Type} (callbacks : List α) :
    List α :=
  callbacks

/-! ## Publish orchestration callback (src/gui.py and src/cli.py) -/

/-- A call to `self.client.publish(topic_name, json_message)` produced by a
publish callback, with the fields of the message dict built at src/gui.py,
lines 1638-1643 (identical at src/cli.py, lines 1067-1072). -/
structure PublishCall where
  topic_name : String
  sensor : String
  value : Int
  timestamp : Nat
  units : String
  deriving DecidableEq, Repr

/-- Embedding of the closure returned by `make_publish_callback`
(src/gui.py, lines 1632-1651; the same logic appears as `publish_callback`
in src/cli.py, lines 1060-1080).  On every sensor event it re-reads the
topic row with `self.db.get_topic(topic_name)`; `topicNameInt` is the
outcome of the `int(topic_name)` builtin call inside that `get_topic`
(determined by `topic_name` alone, so fixed for the lifetime of the
callback): `none` for an ordinary topic name, `some n` when the topic
name parses as an integer, in which case `get_topic` looks the row up by
id `n` rather than by name.  The callback returns without publishing when
the row it reads back is missing or its `publish` flag is falsy, and
otherwise publishes exactly when the event's sensor belongs to the
captured sensor set and the client is connected. -/
def make_publish_callback (rows : List TopicRow) (topic_name : String)
    (topicNameInt : Option Int) (sensor_names : List String)
    (clientConnected : Bool)
    (sensor_name : String) (value : Int) (timestamp : Nat) (units : String) :
    Option PublishCall :=
  match Database.get_topic rows topic_name topicNameInt with
  | none => none
  | some current_topic_info =>
    if current_topic_info.publish = false then none
    else if sensor_names.contains sensor_name && clientConnected then
      some ⟨topic_name, sensor_name, value, timestamp, units⟩
    else none

/-! ## Theorems -/

/-- The enum round trip: every defined type byte parses back to itself. -/
theorem PacketType.fromNat?_toNat (t : PacketType) :
    PacketType.fromNat? t.toNat = some t := by
  cases t <;> rfl

/-- C1: for every defined packet type `t`, flags byte `f` and payload `p`
with at most 65535 bytes, deserializing the byte string produced by
`Packet(t, f, p).serialize()` returns a packet whose type, flags and
payload equal `(t, f, p)`, together with a consumed-byte count of exactly
`4 + len(p)`. -/
theorem serialize_deserialize_roundtrip (t : PacketType) (f : Nat)
    (p : List Nat) (hf : f < 256) (hp : p.length ≤ 65535)
    (hb : ∀ b ∈ p, b < 256) :
    (Packet.serialize ⟨t, f, p⟩).map Packet.deserialize
      = some (some ⟨t, f, p⟩, 4 + p.length) := by
  have hlt : p.length < 65536 := Nat.lt_succ_of_le hp
  have hser : Packet.serialize ⟨t, f, p⟩
      = some (t.toNat :: f :: (p.length / 256) :: (p.length % 256) :: p) := by
    unfold Packet.serialize
    rw [if_pos ⟨hf, hlt⟩]
    rfl
  rw [hser]
  refine congrArg some ?_
  unfold Packet.deserialize
  simp only [Nat.div_add_mod, lt_self_iff_false, if_false,
    PacketType.fromNat?_toNat, List.take_length]

/-- Witness for C1 at a concrete packet. -/
theorem serialize_deserialize_roundtrip_witness :
    (Packet.serialize ⟨PacketType.PUB, 0, [1, 2, 3]⟩).map Packet.deserialize
      = some (some ⟨PacketType.PUB, 0, [1, 2, 3]⟩, 4 + 3) :=
  serialize_deserialize_roundtrip PacketType.PUB 0 [1, 2, 3] (by decide)
    (by decide) (by decide)

/-- C8: `Packet.deserialize` is total (the embedding is a total function,
mirroring that every exception in the Python body is prevented or caught)
and never over-consumes: it returns `(none, 0)` when fewer than 4 header
bytes are present, returns `(none, 0)` when fewer than
`4 + payload_length` bytes are present, and in every case the returned
consumed count is at most the buffer length. -/
theorem deserialize_total_safe (data : List Nat) :
    (data.length < 4 → Packet.deserialize data = (none, 0)) ∧
    (∀ b0 b1 b2 b3 rest, data = b0 :: b1 :: b2 :: b3 :: rest →
      rest.length < 256 * b2 + b3 → Packet.deserialize data = (none, 0)) ∧
    (Packet.deserialize data).2 ≤ data.length := by
  match data with
  | [] =>
    exact ⟨fun _ => rfl, by rintro _ _ _ _ _ ⟨⟩, by simp [Packet.deserialize]⟩
  | [b0] =>
    exact ⟨fun _ => rfl, by rintro _ _ _ _ _ ⟨⟩, by simp [Packet.deserialize]⟩
  | [b0, b1] =>
    exact ⟨fun _ => rfl, by rintro _ _ _ _ _ ⟨⟩, by simp [Packet.deserialize]⟩
  | [b0, b1, b2] =>
    exact ⟨fun _ => rfl, by rintro _ _ _ _ _ ⟨⟩, by simp [Packet.deserialize]⟩
  | b0 :: b1 :: b2 :: b3 :: rest =>
    refine ⟨?_, ?_, ?_⟩
    · intro h
      exfalso
      simp only [List.length_cons] at h
      omega
    · rintro c0 c1 c2 c3 rest' heq hlen
      injection heq with h0 h
      injection h with h1 h
      injection h with h2 h
      injection h with h3 h4
      subst h0; subst h2; subst h3; subst h4
      simp [Packet.deserialize, hlen]
    · by_cases hlen : rest.length < 256 * b2 + b3
      · simp [Packet.deserialize, hlen]
      · cases hft : PacketType.fromNat? b0 <;>
          simp [Packet.deserialize, hlen, hft, List.length_cons] <;> omega

/-- Witness for C8 at concrete buffers: a 2-byte buffer, a buffer whose
header announces more payload than is present, and the consumed-count
bound at a full frame. -/
theorem deserialize_total_safe_witness :
    Packet.deserialize [1, 0] = (none, 0) ∧
    Packet.deserialize [255, 0, 0, 5, 9] = (none, 0) ∧
    (Packet.deserialize [3, 0, 0, 1, 9]).2 ≤ [3, 0, 0, 1, 9].length :=
  ⟨(deserialize_total_safe [1, 0]).1 (by decide),
   (deserialize_total_safe [255, 0, 0, 5, 9]).2.1 255 0 0 5 [9] rfl (by decide),
   (deserialize_total_safe [3, 0, 0, 1, 9]).2.2⟩

/-- C4 (failing-input evaluation): on a buffer holding a complete frame
with undefined type byte `0xFF` followed by a complete `CONNACK` frame,
`Packet.deserialize` does consume the full unknown frame (4 bytes), but
the `_read_loop` processing pass dispatches no packet and drops 0 bytes
from the receive buffer: the `if packet is None: break` branch ignores the
returned consumed count, so the unknown frame is never skipped and the
following `CONNACK` frame is never handled. -/
theorem unknown_type_frame_stalls_read_loop :
    Packet.deserialize [255, 0, 0, 0, 2, 0, 0, 0] = (none, 4) ∧
    Client.readLoopProcess [255, 0, 0, 0, 2, 0, 0, 0] = ([], 0) := by
  exact ⟨rfl, rfl⟩

/-- C3 (failing-input evaluation): on an empty store, the pair of calls
`add_subscription("T", "S"); add_subscription("T", "S")` leaves two active
rows for the pair, and `get_subscriptions` returns both — because the
`subscriptions` table has no uniqueness constraint on
`(topic, source_client_id)`, `INSERT OR REPLACE` never replaces and each
call inserts a fresh row. -/
theorem add_subscription_twice_duplicates :
    (Database.get_subscriptions
        (Database.add_subscription
          (Database.add_subscription Database.emptySubs "T" "S") "T" "S")).map
        (fun r => (r.topic, r.source_client_id))
      = [("T", "S"), ("T", "S")] := by
  rfl

/-- Any row `get_topic` finds for a non-numeric topic string (the
name-lookup branch, `intResult = none`) after `set_topic_publish(T, false)`
carries a false `publish` flag. -/
theorem get_topic_set_false_publish (rows : List TopicRow) (T : String) :
    ∀ r, Database.get_topic (Database.set_topic_publish rows T false) T none
        = some r → r.publish = false := by
  induction rows with
  | nil => intro r h; cases h
  | cons q qs ih =>
    intro r h
    simp only [Database.set_topic_publish, List.map_cons,
      Database.get_topic] at h
    by_cases hq : (q.name == T) = true
    · rw [if_pos hq] at h
      have hn : ((({ q with publish := false } : TopicRow)).name == T)
          = true := hq
      rw [List.find?_cons_of_pos (p := fun x : TopicRow => x.name == T) _ hn] at h
      cases h
      rfl
    · rw [if_neg hq] at h
      rw [List.find?_cons_of_neg (p := fun x : TopicRow => x.name == T) _ hq] at h
      exact ih r h

/-- C5 (counterexample): with topics `(id=1, name="fan", publish)` and
`(id=2, name="1", publish)` and a publish callback installed for the
numeric topic name `"1"`, `set_topic_publish("1", false)` updates row 2 by
name — but on the next matching sensor event the callback's re-read
`db.get_topic("1")` takes the `int("1") = 1` branch, fetches row id 1
(`"fan"`, still publishing) and publishes on topic `"1"` anyway, refuting
the claim that after `set_topic_publish(T, false)` no callback associated
with `T` produces a publish call. -/
theorem numeric_topic_callback_publishes_after_unpublish :
    make_publish_callback
        (Database.set_topic_publish
          [⟨1, "fan", true⟩, ⟨2, "1", true⟩] "1" false)
        "1" (some 1) ["s"] true "s" 7 1700000000 "C"
      = some ⟨"1", "s", 7, 1700000000, "C"⟩ := by
  rfl

/-- C5 (amended): after `set_topic_publish(T, false)` in the store, no
publish callback bound to topic `T` produces a publish call on any sensor
event — provided `T` does not parse as a Python integer (`int(T)` raises
`ValueError`, i.e. the `intResult = none` branch of `get_topic`) —
whatever sensor set the callback captured and whether or not the
orchestrator has re-installed callbacks: the callback re-reads the
topic's `publish` flag by name from the store on each event and returns
without publishing when it is false.  For a numeric topic name the
re-read resolves by id instead and the guarantee fails (see the
counterexample). -/
theorem publish_callback_silent_after_unpublish (rows : List TopicRow)
    (T : String) (sensor_names : List String) (connected : Bool)
    (sensor_name : String) (value : Int) (timestamp : Nat) (units : String) :
    make_publish_callback (Database.set_topic_publish rows T false) T none
      sensor_names connected sensor_name value timestamp units = none := by
  unfold make_publish_callback
  cases hr : Database.get_topic (Database.set_topic_publish rows T false) T
      none with
  | none => rfl
  | some r =>
    have hpub := get_topic_set_false_publish rows T r hr
    simp [hpub]

/-- C6 (counterexample): in a connected state with an outstanding
`get_my_admin_topics` waiter (a one-shot handler registered for
`MY_ADMIN_TOPICS_RESP` and the waiter's event unset), `disconnect()` leaves
the waiter's event unset and the handler registered: nothing delivers a
`connection_lost` result, so the waiter can only return via its own
timeout. -/
theorem disconnect_leaves_admin_topics_waiter_blocked :
    (Client.disconnect
        ⟨true, true, true, [PacketType.MY_ADMIN_TOPICS_RESP], false⟩).adminTopicsEventSet
      = false ∧
    (Client.disconnect
        ⟨true, true, true, [PacketType.MY_ADMIN_TOPICS_RESP], false⟩).tempHandlerKeys
      = [PacketType.MY_ADMIN_TOPICS_RESP] :=
  ⟨rfl, rfl⟩

/-- C6 (amended): `disconnect()` clears the running/connected flags and
drops the socket but leaves every registered one-shot correlation handler
in place and every waiter's event exactly as it was: outstanding
correlation waiters are not released with a `connection_lost` result and
block until their own timeout expires. -/
theorem disconnect_preserves_correlation_waiters (s : ClientState) :
    Client.disconnect s
      = { s with running := false, socketLive := false, connected := false } ∧
    (Client.disconnect s).tempHandlerKeys = s.tempHandlerKeys ∧
    (Client.disconnect s).adminTopicsEventSet = s.adminTopicsEventSet :=
  ⟨rfl, rfl, rfl⟩

/-- Renaming-free update: overwriting the `publish` flag of the rows named
`name` does not change the list of topic names. -/
theorem set_publish_preserves_names (rows : List TopicRow) (name : String)
    (pub : Bool) :
    (rows.map (fun q => if q.name == name then { q with publish := pub }
                        else q)).map TopicRow.name
      = rows.map TopicRow.name := by
  induction rows with
  | nil => rfl
  | cons q qs ih =>
    by_cases h : (q.name == name) = true
    · simp only [List.map_cons, if_pos h, ih]
    · simp only [List.map_cons, if_neg h, ih]

/-- One `create_topic` call preserves uniqueness of topic names. -/
theorem create_topic_preserves_unique_names (db : TopicsTable)
    (name : String) (pub : Bool)
    (h : (db.rows.map TopicRow.name).Nodup) :
    (((Database.create_topic db name pub).1).rows.map TopicRow.name).Nodup := by
  unfold Database.create_topic
  cases hf : db.rows.find? (fun r => r.name == name) with
  | some r =>
    simpa only [set_publish_preserves_names] using h
  | none =>
    have hnot : name ∉ db.rows.map TopicRow.name := by
      intro hmem
      obtain ⟨q, hq, hqname⟩ := List.mem_map.mp hmem
      have := (List.find?_eq_none.mp hf) q hq
      simp [hqname] at this
    simp only [List.map_append, List.map_cons, List.map_nil]
    rw [List.nodup_append]
    refine ⟨h, List.nodup_singleton _, ?_⟩
    intro x hx hx'
    simp only [List.mem_singleton] at hx'
    subst hx'
    exact hnot hx

/-- After overwriting the `publish` flag of the rows named `name`, the
first row found by that name is the previously found row with its flag
overwritten. -/
theorem find?_name_after_set_publish (rows : List TopicRow) (name : String)
    (pub : Bool) (r : TopicRow)
    (hf : rows.find? (fun q => q.name == name) = some r) :
    (rows.map (fun q => if q.name == name then { q with publish := pub }
                        else q)).find? (fun q => q.name == name)
      = some { r with publish := pub } := by
  induction rows with
  | nil => cases hf
  | cons q qs ih =>
    by_cases hq : (q.name == name) = true
    · rw [List.find?_cons_of_pos (p := fun x : TopicRow => x.name == name)
          _ hq] at hf
      cases hf
      simp only [List.map_cons, if_pos hq]
      have hn : ((({ r with publish := pub } : TopicRow)).name == name)
          = true := hq
      rw [List.find?_cons_of_pos (p := fun x : TopicRow => x.name == name)
          _ hn]
    · rw [List.find?_cons_of_neg (p := fun x : TopicRow => x.name == name)
          _ hq] at hf
      simp only [List.map_cons, if_neg hq]
      rw [List.find?_cons_of_neg (p := fun x : TopicRow => x.name == name)
          _ hq]
      exact ih hf

/-- C10: `create_topic(name, publish)` called when a topic row with that
name already exists does not fail and does not create a second row: the
row count is unchanged, the existing topic's `publish` flag is overwritten
with the given value, and the existing topic's id is returned; moreover
topic names remain unique across every sequence of `create_topic` calls
starting from the empty table. -/
theorem create_topic_upsert_and_unique :
    (∀ (db : TopicsTable) (name : String) (publish : Bool) (r : TopicRow),
      db.rows.find? (fun q => q.name == name) = some r →
        ((Database.create_topic db name publish).1.rows.length
            = db.rows.length ∧
         (Database.create_topic db name publish).2 = r.id ∧
         (Database.create_topic db name publish).1.rows.find?
             (fun q => q.name == name) = some { r with publish := publish })) ∧
    (∀ ops : List (String × Bool),
      (((ops.foldl (fun db op => (Database.create_topic db op.1 op.2).1)
          Database.emptyTopics).rows.map TopicRow.name)).Nodup) := by
  constructor
  · intro db name publish r hf
    refine ⟨?_, ?_, ?_⟩
    · unfold Database.create_topic
      rw [hf]
      simp
    · unfold Database.create_topic
      rw [hf]
    · unfold Database.create_topic
      rw [hf]
      exact find?_name_after_set_publish db.rows name publish r hf
  · intro ops
    suffices h : ∀ db : TopicsTable, (db.rows.map TopicRow.name).Nodup →
        (((ops.foldl (fun db op => (Database.create_topic db op.1 op.2).1)
            db).rows.map TopicRow.name)).Nodup by
      exact h Database.emptyTopics (by simp [Database.emptyTopics])
    induction ops with
    | nil => intro db h; exact h
    | cons op ops ih =>
      intro db h
      exact ih _ (create_topic_preserves_unique_names db op.1 op.2 h)

/-- Witness for C10: re-creating the existing topic `"t"` with
`publish=false` keeps one row, returns id 1 and overwrites the flag; a
concrete call sequence keeps names unique. -/
theorem create_topic_upsert_and_unique_witness :
    (Database.create_topic ⟨[⟨1, "t", true⟩], 2⟩ "t" false).1.rows.length
        = 1 ∧
    (Database.create_topic ⟨[⟨1, "t", true⟩], 2⟩ "t" false).2 = 1 ∧
    (Database.create_topic ⟨[⟨1, "t", true⟩], 2⟩ "t" false).1.rows.find?
        (fun q => q.name == "t")
      = some ⟨1, "t", false⟩ ∧
    ((([("a", true), ("a", false), ("b", true)] : List (String × Bool)).foldl
        (fun db op => (Database.create_topic db op.1 op.2).1)
        Database.emptyTopics).rows.map TopicRow.name).Nodup :=
  ⟨(create_topic_upsert_and_unique.1 ⟨[⟨1, "t", true⟩], 2⟩ "t" false
      ⟨1, "t", true⟩ rfl).1,
   (create_topic_upsert_and_unique.1 ⟨[⟨1, "t", true⟩], 2⟩ "t" false
      ⟨1, "t", true⟩ rfl).2.1,
   (create_topic_upsert_and_unique.1 ⟨[⟨1, "t", true⟩], 2⟩ "t" false
      ⟨1, "t", true⟩ rfl).2.2,
   create_topic_upsert_and_unique.2 [("a", true), ("a", false), ("b", true)]⟩

/-- Adding a callback that is not yet registered preserves, and adding a
registered one trivially preserves, the no-duplicates property of the DAS
callback list. -/
theorem add_data_callback_nodup {α : Type} [DecidableEq α] (l : List α)
    (f : α) (h : l.Nodup) :
    (DataAcquisitionService.add_data_callback l f).Nodup := by
  unfold DataAcquisitionService.add_data_callback
  by_cases hf : f ∈ l
  · simpa [hf] using h
  · rw [if_neg hf, List.nodup_append]
    refine ⟨h, List.nodup_singleton _, ?_⟩
    intro x hx hx'
    simp only [List.mem_singleton] at hx'
    subst hx'
    exact hf hx

/-- Membership in a fold of `add_data_callback` calls is membership in the
accumulator or in the added list. -/
theorem mem_foldl_add_data_callback {α : Type} [DecidableEq α]
    (fs : List α) (acc : List α) (x : α) :
    x ∈ fs.foldl DataAcquisitionService.add_data_callback acc
      ↔ x ∈ acc ∨ x ∈ fs := by
  induction fs generalizing acc with
  | nil => simp
  | cons g gs ih =>
    rw [List.foldl_cons, ih]
    unfold DataAcquisitionService.add_data_callback
    by_cases hg : g ∈ acc
    · rw [if_pos hg]
      constructor
      · rintro (h | h)
        · exact Or.inl h
        · exact Or.inr (List.mem_cons_of_mem g h)
      · rintro (h | h)
        · exact Or.inl h
        · rcases List.mem_cons.mp h with h | h
          · exact Or.inl (h ▸ hg)
          · exact Or.inr h
    · rw [if_neg hg]
      simp only [List.mem_append, List.mem_singleton, List.mem_cons]
      tauto

/-- The fold of `add_data_callback` over any call sequence, starting from
the empty registry, has no duplicates. -/
theorem nodup_foldl_add_data_callback {α : Type} [DecidableEq α]
    (fs : List α) :
    (fs.foldl DataAcquisitionService.add_data_callback
      ([] : List α)).Nodup := by
  suffices h : ∀ acc : List α, acc.Nodup →
      (fs.foldl DataAcquisitionService.add_data_callback acc).Nodup from
    h [] List.nodup_nil
  induction fs with
  | nil => intro acc h; exact h
  | cons g gs ih =>
    intro acc h
    exact ih _ (add_data_callback_nodup acc g h)

/-- C9: registering a data callback on the DAS is idempotent — adding a
callback already in the list leaves the list unchanged — so after any
sequence of `add_data_callback` calls each distinct callback appears
exactly once in the registry and is invoked exactly once per sensor
reading. -/
theorem add_data_callback_idempotent_unique {α : Type} [DecidableEq α]
    (l : List α) (f : α) (fs : List α) :
    (f ∈ l → DataAcquisitionService.add_data_callback l f = l) ∧
    (f ∈ fs →
      (DataAcquisitionService.invocations
        (fs.foldl DataAcquisitionService.add_data_callback [])).count f
        = 1) := by
  constructor
  · intro hf
    unfold DataAcquisitionService.add_data_callback
    rw [if_pos hf]
  · intro hf
    have hmem : f ∈ fs.foldl DataAcquisitionService.add_data_callback
        ([] : List α) :=
      (mem_foldl_add_data_callback fs [] f).mpr (Or.inr hf)
    exact List.count_eq_one_of_mem (nodup_foldl_add_data_callback fs) hmem

/-- Witness for C9 at concrete callback registries. -/
theorem add_data_callback_idempotent_unique_witness :
    DataAcquisitionService.add_data_callback [7] 7 = [7] ∧
    (DataAcquisitionService.invocations
      (([1, 2, 1] : List Nat).foldl
        DataAcquisitionService.add_data_callback [])).count 1 = 1 :=
  ⟨(add_data_callback_idempotent_unique [7] 7 []).1 (by decide),
   (add_data_callback_idempotent_unique ([] : List Nat) 1 [1, 2, 1]).2
     (by decide)⟩

/-- C2 (counterexample): with `client_id = "alice"` and topic `"t"`, a
message that is not valid JSON (for instance `"hello"`, on which
`json.loads` raises) makes the connected `publish` call fail synchronously
in the `except` branch, although the wrapped effective topic
`["alice/t"]` is well within the 255-byte bound — refuting both the
claimed fallback to `"<client_id>/<topic>"` for non-JSON messages and the
claim that the call fails synchronously exactly on the topic-length
bound. -/
theorem publish_non_json_message_fails :
    Client.publish true "alice" "t" "hello" none = PublishResult.raised ∧
    (utf8Encode (jsonDumpsSingletonArray ("alice" ++ "/" ++ "t"))).length
      ≤ 255 :=
  ⟨rfl, by decide⟩

/-- C2 (amended): for a connected `publish` call, a message on which
`json.loads` raises fails synchronously without sending anything; a parsed
message for which the `"cliente"` membership test is false uses effective
topic `"<client_id>/<topic>"`; a parsed JSON object whose first
`"cliente"` entry holds a string `c` uses effective topic
`"<c>/<topic>"`; and in both publishing cases the call fails
synchronously exactly when the JSON-encoded wrapped topic exceeds 255
UTF-8 bytes, and otherwise sends a PUB frame with flags 0 whose payload is
the one-byte topic length, the wrapped-topic bytes and the message
bytes. -/
theorem publish_effective_topic_and_payload (client_id topic message : String)
    (j : PyJson) (kvs : List (String × PyJson)) (c : String) :
    (Client.publish true client_id topic message none
        = PublishResult.raised) ∧
    (PyJson.containsCliente j = .ok false →
      Client.publish true client_id topic message (some j)
        = Client.publishFrom (client_id ++ "/" ++ topic) message) ∧
    (kvs.find? (fun kv => kv.1 == "cliente")
        = some ("cliente", PyJson.str c) →
      Client.publish true client_id topic message (some (.obj kvs))
        = Client.publishFrom (c ++ "/" ++ topic) message) ∧
    (∀ effective_topic : String,
      Client.publishFrom effective_topic message
        = if 255 < (utf8Encode (jsonDumpsSingletonArray
              effective_topic)).length
          then PublishResult.topicTooLong
          else PublishResult.sent
            ⟨PacketType.PUB, 0,
             (utf8Encode (jsonDumpsSingletonArray effective_topic)).length ::
               (utf8Encode (jsonDumpsSingletonArray effective_topic)
                 ++ utf8Encode message)⟩) := by
  refine ⟨rfl, ?_, ?_, fun _ => rfl⟩
  · intro hnc
    simp only [Client.publish]
    rw [hnc]
    rfl
  · intro hfind
    have hany : (kvs.any (fun kv => kv.1 == "cliente")) = true :=
      List.any_eq_true.mpr
        ⟨("cliente", PyJson.str c),
         List.mem_of_find?_eq_some hfind, by rfl⟩
    simp only [Client.publish, PyJson.containsCliente]
    rw [hany]
    simp only [if_true, PyJson.getItemCliente]
    rw [hfind]
    rfl

/-- Witness for C2 at concrete publish calls: a message without a
`"cliente"` field publishes on `"alice/weather"`, and one whose
`"cliente"` field is `"bob"` publishes on `"bob/ctl"`. -/
theorem publish_effective_topic_and_payload_witness :
    Client.publish true "alice" "weather" "m1"
        (some (.obj [("sensor", PyJson.str "t")]))
      = Client.publishFrom ("alice" ++ "/" ++ "weather") "m1" ∧
    Client.publish true "alice" "ctl" "m2"
        (some (.obj [("cliente", PyJson.str "bob")]))
      = Client.publishFrom ("bob" ++ "/" ++ "ctl") "m2" :=
  ⟨(publish_effective_topic_and_payload "alice" "weather" "m1"
      (.obj [("sensor", PyJson.str "t")]) [] "x").2.1 (by rfl),
   (publish_effective_topic_and_payload "alice" "ctl" "m2" .null
      [("cliente", PyJson.str "bob")] "bob").2.2.1 (by rfl)⟩

/-- C7 (counterexample): a connected client `"alice"` calling
`request_admin_status("t", "alice", cb)` — owner id equal to its own
client id — still hands the admin-request envelope to `_send_packet`:
the request is not rejected locally. -/
theorem self_request_admin_is_still_published :
    (Client.request_admin_status true "alice" "t" "alice"
        0).sentPacket?.isSome = true := by
  rfl

/-- C7 (amended): `Client.request_admin_status` performs no local
comparison of `owner_id` with the client's own id: whenever the client is
connected, it builds the JSON envelope and publishes it on
`"<owner_id>/admin"`, returning the publish result — also when
`owner_id` equals `client_id` (as in the witness); provided the encoded
wrapped topic fits the 255-byte bound, the envelope is handed to
`_send_packet`.  The self-request rejection lives in the GUI layer
(src/gui.py, lines 3277-3279) and in the broker's `SELF_REQUEST` error,
not in this call. -/
theorem request_admin_status_no_local_self_check
    (client_id topic_name owner_id : String) (timestamp : Nat)
    (hlen : (utf8Encode (jsonDumpsSingletonArray
        (client_id ++ "/" ++ (owner_id ++ "/admin")))).length ≤ 255) :
    Client.request_admin_status true client_id topic_name owner_id timestamp
      = .published (Client.publishFrom
          (client_id ++ "/" ++ (owner_id ++ "/admin"))
          (adminRequestMessage client_id topic_name owner_id timestamp)) ∧
    (Client.request_admin_status true client_id topic_name owner_id
        timestamp).sentPacket?.isSome = true := by
  have h1 : Client.request_admin_status true client_id topic_name owner_id
        timestamp
      = .published (Client.publishFrom
          (client_id ++ "/" ++ (owner_id ++ "/admin"))
          (adminRequestMessage client_id topic_name owner_id timestamp)) :=
    rfl
  refine ⟨h1, ?_⟩
  rw [h1]
  simp only [Client.publishFrom]
  rw [if_neg (Nat.not_lt.mpr hlen)]
  rfl

/-- Witness for C7's amended statement: client `"bob"` self-requesting
admin on its own topic `"x"` still sends the envelope. -/
theorem request_admin_status_no_local_self_check_witness :
    (Client.request_admin_status true "bob" "x" "bob" 0).sentPacket?.isSome
      = true :=
  (request_admin_status_no_local_self_check "bob" "x" "bob" 0 (by decide)).2
